import Mathlib

/-!
Verification development for the capibara-core request pipeline.

The Python sources are shallowly embedded: pure functions become Lean
functions, the stateful cache becomes explicit state passing, fallible
steps return `Option`/`Except`, and collaborator calls (LLM provider,
Docker, filesystem) become parameters holding the collaborator's result.
Machine integers are modelled as `Nat`/`Int` (with explicit `% 2 ^ 32`
where 32-bit overflow matters, in SHA-256), floats as `ℚ`.
-/

namespace Capibara

/-! ## Python values and context trees (src/capibara/utils/fingerprinting.py)

A request `context` is a JSON-like mapping.  `PyVal` models the scalar
Python values that can appear in it; `CVal` models arbitrary nesting
(scalars, lists, string-keyed dicts).  Dicts are association lists.  -/

/-- Scalar Python values appearing in a request context. -/
inductive PyVal where
  | pstr : String → PyVal
  | pint : Int → PyVal
  | pfloat : ℚ → PyVal
  | pbool : Bool → PyVal
  | pnone : PyVal
deriving DecidableEq, Repr

/-- JSON-like context values: scalars, lists, string-keyed mappings. -/
inductive CVal where
  | prim : PyVal → CVal
  | list : List CVal → CVal
  | dict : List (String × CVal) → CVal

/-! ### Sorting helpers

Python `sorted` on strings and on dict items is modelled by an insertion
sort with a boolean comparator (dict items are compared by key: Python
compares the `(key, value)` tuples, but keys in a dict are unique so
only the key comparison is ever used).  -/

/-- Insert `a` into `l` before the first element `b` with `le a b`. -/
def insertLeB (le : α → α → Bool) (a : α) : List α → List α
  | [] => [a]
  | b :: l => if le a b then a :: b :: l else b :: insertLeB le a l

/-- Insertion sort with a boolean comparator. -/
def insSortB (le : α → α → Bool) : List α → List α
  | [] => []
  | a :: l => insertLeB le a (insSortB le l)

theorem insertLeB_perm (le : α → α → Bool) (a : α) (l : List α) :
    (insertLeB le a l).Perm (a :: l) := by
  induction l with
  | nil => simp [insertLeB]
  | cons b l ih =>
    simp only [insertLeB]
    by_cases h : le a b = true
    · simp [h]
    · simp only [h, if_false]
      exact (ih.cons b).trans (List.Perm.swap a b l)

theorem insSortB_perm (le : α → α → Bool) (l : List α) :
    (insSortB le l).Perm l := by
  induction l with
  | nil => simp [insSortB]
  | cons a l ih =>
    exact (insertLeB_perm le a (insSortB le l)).trans (ih.cons a)

theorem sizeOf_insertLeB [SizeOf α] (le : α → α → Bool) (a : α) (l : List α) :
    sizeOf (insertLeB le a l) = 1 + sizeOf a + sizeOf l := by
  induction l with
  | nil => simp [insertLeB]
  | cons b l ih =>
    by_cases h : le a b = true
    · simp [insertLeB, h]
    · simp [insertLeB, h, ih]
      omega

theorem sizeOf_insSortB [SizeOf α] (le : α → α → Bool) (l : List α) :
    sizeOf (insSortB le l) = sizeOf l := by
  induction l with
  | nil => rfl
  | cons a l ih => simp [insSortB, sizeOf_insertLeB, ih]

/-- Boolean string order backing Python `sorted` on strings. -/
def strLeB (a b : String) : Bool := a ≤ b

theorem insertLeB_comm_of_linear (le : α → α → Bool)
    (total : ∀ x y, le x y = true ∨ le y x = true)
    (antisymm : ∀ x y, le x y = true → le y x = true → x = y)
    (htrans : ∀ x y z, le x y = true → le y z = true → le x z = true)
    (a b : α) (l : List α) :
    insertLeB le a (insertLeB le b l) = insertLeB le b (insertLeB le a l) := by
  induction l with
  | nil =>
    by_cases hab : le a b = true <;> by_cases hba : le b a = true <;>
      simp [insertLeB, hab, hba]
    · exact ⟨antisymm a b hab hba, (antisymm a b hab hba).symm⟩
    · rcases total a b with h | h
      · exact absurd h hab
      · exact absurd h hba
  | cons c l ih =>
    by_cases hac : le a c = true <;> by_cases hbc : le b c = true
    · by_cases hab : le a b = true <;> by_cases hba : le b a = true <;>
        simp [insertLeB, hac, hbc, hab, hba]
      · exact ⟨antisymm a b hab hba, (antisymm a b hab hba).symm⟩
      · rcases total a b with h | h
        · exact absurd h hab
        · exact absurd h hba
    · have hba : le b a = false := by
        by_cases h : le b a = true
        · exact absurd (htrans b a c h hac) (by simpa using hbc)
        · simpa using h
      simp [insertLeB, hac, hbc, hba]
    · have hab : le a b = false := by
        by_cases h : le a b = true
        · exact absurd (htrans a b c h hbc) (by simpa using hac)
        · simpa using h
      simp [insertLeB, hac, hbc, hab]
    · simp [insertLeB, hac, hbc, ih]

theorem insSortB_eq_of_perm (le : α → α → Bool)
    (total : ∀ x y, le x y = true ∨ le y x = true)
    (antisymm : ∀ x y, le x y = true → le y x = true → x = y)
    (htrans : ∀ x y z, le x y = true → le y z = true → le x z = true)
    {l₁ l₂ : List α} (h : l₁.Perm l₂) :
    insSortB le l₁ = insSortB le l₂ := by
  induction h with
  | nil => rfl
  | cons a _ ih => simp [insSortB, ih]
  | swap a b l =>
    simp only [insSortB]
    exact insertLeB_comm_of_linear le total antisymm htrans b a (insSortB le l)
  | trans _ _ ih₁ ih₂ => exact ih₁.trans ih₂

theorem strLeB_total (a b : String) : strLeB a b = true ∨ strLeB b a = true := by
  simp only [strLeB, decide_eq_true_eq]
  exact le_total a b

theorem strLeB_antisymm (a b : String) :
    strLeB a b = true → strLeB b a = true → a = b := by
  simp only [strLeB, decide_eq_true_eq]
  exact le_antisymm

theorem strLeB_trans (a b c : String) :
    strLeB a b = true → strLeB b c = true → strLeB a c = true := by
  simp only [strLeB, decide_eq_true_eq]
  exact le_trans

/-- Sort a dict's items by key, as Python `sorted(context.items())` does
(keys in a dict are unique, so tuple comparison reduces to key comparison). -/
def sortByKey (l : List (String × CVal)) : List (String × CVal) :=
  insSortB (fun a b => strLeB a.1 b.1) l

theorem sizeOf_sortByKey (l : List (String × CVal)) :
    sizeOf (sortByKey l) = sizeOf l :=
  sizeOf_insSortB _ l

/-! ### Python `float(...)` parsing (stdlib, modelled)

Models the success of the Python builtin `float(s)` used by
`_normalize_context` to decide whether a string input counts as a
number: optional surrounding whitespace, optional sign, then either
`inf`/`infinity`/`nan` (any case) or a decimal literal with optional
fraction and exponent.  Digit-group underscores are not modelled. -/

/-- One or more ASCII digits. -/
def allDigits (l : List Char) : Bool := !l.isEmpty && l.all Char.isDigit

/-- Split a character list at the first occurrence of `c`. -/
def splitAtChar (c : Char) : List Char → Option (List Char × List Char)
  | [] => none
  | d :: l =>
    if d = c then some ([], l)
    else (splitAtChar c l).map (fun p => (d :: p.1, p.2))

/-- Mantissa: `digits`, `digits.digits`, `digits.`, or `.digits`. -/
def mantissaOk (l : List Char) : Bool :=
  match splitAtChar '.' l with
  | none => allDigits l
  | some (i, f) => (!i.isEmpty || !f.isEmpty) && i.all Char.isDigit && f.all Char.isDigit

/-- Exponent body: optional sign then one or more digits. -/
def exponentOk (l : List Char) : Bool :=
  match l with
  | c :: rest => if c = '+' ∨ c = '-' then allDigits rest else allDigits l
  | [] => false

/-- Python `str.lower()` (stdlib, modelled characterwise). -/
def pyLower (s : String) : String := String.mk (s.toList.map Char.toLower)

/-- Python `str.strip()` (stdlib, modelled with the whitespace class of
`Char.isWhitespace`). -/
def pyStrip (s : String) : String :=
  String.mk (((s.toList.dropWhile Char.isWhitespace).reverse.dropWhile
    Char.isWhitespace).reverse)

/-- Whether the Python builtin `float(s)` succeeds (modelled from the stdlib). -/
def pyFloatOk (s : String) : Bool :=
  let t := String.mk ((pyStrip s).toList.map Char.toLower)
  let cs := t.toList
  let core := match cs with
    | c :: rest => if c = '+' ∨ c = '-' then rest else cs
    | [] => []
  if core = "inf".toList ∨ core = "infinity".toList ∨ core = "nan".toList then true
  else
    match splitAtChar 'e' core with
    | none => mantissaOk core
    | some (m, ex) => mantissaOk m && exponentOk ex

/-! ### Context normalization (`_normalize_context`) -/

/-- The derived type of one `inputs` element, as computed by the inline
loop in `_normalize_context`.  The branches are checked in source
order: `isinstance(v, str)` (a string parsing as a float counts as
`"number"`), then `isinstance(v, (int, float))`, then
`isinstance(v, bool)`, else `"string"`.  In Python `bool` is a subclass
of `int`, so boolean values satisfy the `(int, float)` check and the
`bool` branch is unreachable: booleans derive `"number"`. -/
def inputType : CVal → String
  | CVal.prim (PyVal.pstr s) => if pyFloatOk s then "number" else "string"
  | CVal.prim (PyVal.pint _) => "number"
  | CVal.prim (PyVal.pfloat _) => "number"
  | CVal.prim (PyVal.pbool _) => "number"
  | _ => "string"

/-- Python `sorted(set(types))`: distinct elements in ascending order. -/
def sortedDedupStr (l : List String) : List String :=
  insSortB strLeB l.dedup

/-- The `{"count": N, "types": sorted unique types}` summary that replaces
a non-empty `inputs` list. -/
def inputsSummary (xs : List CVal) : CVal :=
  CVal.dict
    [("count", CVal.prim (PyVal.pint (xs.length : Int))),
     ("types", CVal.list ((sortedDedupStr (xs.map inputType)).map
        (fun t => CVal.prim (PyVal.pstr t))))]

/-- If every element of the list is a string, return the strings. -/
def asStrings : List CVal → Option (List String)
  | [] => some []
  | CVal.prim (PyVal.pstr s) :: rest => (asStrings rest).map (fun l => s :: l)
  | _ => none

mutual

/-- Embeds `_normalize_context` from src/capibara/utils/fingerprinting.py: an
empty mapping stays empty; otherwise the items are visited in sorted
key order; a non-empty `inputs` list is replaced by its count/types
summary and an empty one is dropped; nested dicts recurse; lists of
strings are sorted; everything else passes through. -/
def normalizeContext (ctx : List (String × CVal)) : List (String × CVal) :=
  if ctx.isEmpty then [] else normalizeItems (sortByKey ctx)
termination_by (sizeOf ctx, 2)
decreasing_by
  rw [sizeOf_sortByKey]
  exact Prod.Lex.right _ (by omega)

/-- Visit the (already key-sorted) items one by one. -/
def normalizeItems : List (String × CVal) → List (String × CVal)
  | [] => []
  | (k, v) :: rest => normalizeEntry k v ++ normalizeItems rest
termination_by l => (sizeOf l, 0)
decreasing_by
  all_goals
    apply Prod.Lex.left
    simp only [Prod.mk.sizeOf_spec, List.cons.sizeOf_spec]
    omega

/-- Normalize one `(key, value)` item; the result is `[]` when the item
is dropped (an empty `inputs` list) and a singleton otherwise. -/
def normalizeEntry (k : String) (v : CVal) : List (String × CVal) :=
  if k = "inputs" then
    match v with
    | CVal.list xs => if xs.length > 0 then [(k, inputsSummary xs)] else []
    | CVal.dict m => [(k, CVal.dict (normalizeContext m))]
    | v => [(k, v)]
  else
    match v with
    | CVal.dict m => [(k, CVal.dict (normalizeContext m))]
    | CVal.list xs =>
      match asStrings xs with
      | some ss =>
        [(k, CVal.list ((insSortB strLeB ss).map (fun s => CVal.prim (PyVal.pstr s))))]
      | none => [(k, CVal.list xs)]
    | v => [(k, v)]
termination_by (sizeOf v, 1)
decreasing_by
  all_goals
    apply Prod.Lex.left
    simp only [CVal.dict.sizeOf_spec]
    omega

end

/-! ### Canonical JSON serialization
(`json.dumps(..., sort_keys=True, separators=(",", ":"))`, stdlib, modelled)

Dict keys are sorted at every level; separators are compact.  String
escaping covers the backslash, the double quote and ASCII control
characters (Python additionally `\uXXXX`-escapes non-ASCII characters
under `ensure_ascii`; no claim depends on that, nor on the rendering of
floats, which is modelled coarsely as the rational's representation). -/

/-- Hex digit for a value below 16. -/
def hexDigit (n : Nat) : Char :=
  if n < 10 then Char.ofNat (48 + n) else Char.ofNat (87 + n)

/-- Escape one character as inside a JSON string literal. -/
def jescapeChar (c : Char) : List Char :=
  if c = '"' then ['\\', '"']
  else if c = '\\' then ['\\', '\\']
  else if c = '\n' then ['\\', 'n']
  else if c = '\t' then ['\\', 't']
  else if c = '\r' then ['\\', 'r']
  else if c.toNat < 32 then
    ['\\', 'u', '0', '0', hexDigit (c.toNat / 16), hexDigit (c.toNat % 16)]
  else [c]

/-- A JSON string literal. -/
def jstr (s : String) : String :=
  "\"" ++ String.mk (s.toList.flatMap jescapeChar) ++ "\""

/-- Serialize a scalar (float rendering modelled coarsely; see above). -/
def serPrim : PyVal → String
  | PyVal.pstr s => jstr s
  | PyVal.pint n => toString n
  | PyVal.pfloat q => toString q
  | PyVal.pbool b => if b then "true" else "false"
  | PyVal.pnone => "null"

mutual

/-- Canonical serialization of a context value. -/
def serCVal : CVal → String
  | CVal.prim p => serPrim p
  | CVal.list xs => "[" ++ serList xs ++ "]"
  | CVal.dict m => "\x7b" ++ serItems (sortByKey m) ++ "\x7d"
termination_by v => (sizeOf v, 1)
decreasing_by
  · apply Prod.Lex.left
    simp only [CVal.list.sizeOf_spec]
    omega
  · rw [sizeOf_sortByKey]
    apply Prod.Lex.left
    simp only [CVal.dict.sizeOf_spec]
    omega

/-- Comma-joined serialization of list elements. -/
def serList : List CVal → String
  | [] => ""
  | [v] => serCVal v
  | v :: rest => serCVal v ++ "," ++ serList rest
termination_by l => (sizeOf l, 0)
decreasing_by
  all_goals
    apply Prod.Lex.left
    simp only [List.cons.sizeOf_spec]
    omega

/-- Comma-joined serialization of (already key-sorted) dict items. -/
def serItems : List (String × CVal) → String
  | [] => ""
  | [(k, v)] => jstr k ++ ":" ++ serCVal v
  | (k, v) :: rest => jstr k ++ ":" ++ serCVal v ++ "," ++ serItems rest
termination_by l => (sizeOf l, 0)
decreasing_by
  all_goals
    apply Prod.Lex.left
    simp only [Prod.mk.sizeOf_spec, List.cons.sizeOf_spec]
    omega

end

/-! ### SHA-256 (`hashlib.sha256`, stdlib, modelled)

A direct implementation over `Nat`, with 32-bit words kept reduced
modulo `2 ^ 32`.  Only the fact that it is a function of its input
string matters to the theorems below. -/

/-- The 32-bit right rotation. -/
def rotr32 (n x : Nat) : Nat :=
  ((x >>> n) + ((x <<< (32 - n)) % 4294967296)) % 4294967296

/-- Bitwise xor of three words. -/
def xor3 (a b c : Nat) : Nat := Nat.xor (Nat.xor a b) c

/-- The SHA-256 small sigma-0 schedule function. -/
def ssig0 (x : Nat) : Nat := xor3 (rotr32 7 x) (rotr32 18 x) (x >>> 3)

/-- The SHA-256 small sigma-1 schedule function. -/
def ssig1 (x : Nat) : Nat := xor3 (rotr32 17 x) (rotr32 19 x) (x >>> 10)

/-- The SHA-256 big sigma-0 compression function. -/
def bsig0 (x : Nat) : Nat := xor3 (rotr32 2 x) (rotr32 13 x) (rotr32 22 x)

/-- The SHA-256 big sigma-1 compression function. -/
def bsig1 (x : Nat) : Nat := xor3 (rotr32 6 x) (rotr32 11 x) (rotr32 25 x)

/-- Choice function. -/
def chF (x y z : Nat) : Nat :=
  Nat.xor (Nat.land x y) (Nat.land (4294967295 - x) z)

/-- Majority function. -/
def majF (x y z : Nat) : Nat :=
  xor3 (Nat.land x y) (Nat.land x z) (Nat.land y z)

/-- The 64 SHA-256 round constants (in decimal). -/
def sha256k : List Nat :=
  [1116352408, 1899447441, 3049323471, 3921009573, 961987163, 1508970993,
   2453635748, 2870763221, 3624381080, 310598401, 607225278, 1426881987,
   1925078388, 2162078206, 2614888103, 3248222580, 3835390401, 4022224774,
   264347078, 604807628, 770255983, 1249150122, 1555081692, 1996064986,
   2554220882, 2821834349, 2952996808, 3210313671, 3336571891, 3584528711,
   113926993, 338241895, 666307205, 773529912, 1294757372, 1396182291,
   1695183700, 1986661051, 2177026350, 2456956037, 2730485921, 2820302411,
   3259730800, 3345764771, 3516065817, 3600352804, 4094571909, 275423344,
   430227734, 506948616, 659060556, 883997877, 958139571, 1322822218,
   1537002063, 1747873779, 1955562222, 2024104815, 2227730452, 2361852424,
   2428436474, 2756734187, 3204031479, 3329325298]

/-- Split a byte list into 32-bit big-endian words. -/
def bytesToWords : List Nat → List Nat
  | b0 :: b1 :: b2 :: b3 :: rest =>
    (b0 * 16777216 + b1 * 65536 + b2 * 256 + b3) :: bytesToWords rest
  | _ => []

/-- SHA-256 padding: append `0x80`, zeros, then the 64-bit bit length. -/
def sha256pad (msg : List Nat) : List Nat :=
  let l := msg.length
  let zeros := (55 + 64 - (l % 64)) % 64
  let bitLen := l * 8
  msg ++ [0x80] ++ List.replicate zeros 0 ++
    [(bitLen >>> 56) % 256, (bitLen >>> 48) % 256, (bitLen >>> 40) % 256,
     (bitLen >>> 32) % 256, (bitLen >>> 24) % 256, (bitLen >>> 16) % 256,
     (bitLen >>> 8) % 256, bitLen % 256]

/-- Extend 16 message words to the 64-entry schedule. -/
def sha256schedule (w : List Nat) : List Nat :=
  (List.range 48).foldl
    (fun acc i =>
      let g := fun j => acc.getD j 0
      acc ++ [(g (i + 0) + ssig0 (g (i + 1)) + g (i + 9) + ssig1 (g (i + 14)))
                % 4294967296])
    w

/-- One compression round. -/
def sha256round (st : List Nat) (kw : Nat × Nat) : List Nat :=
  let g := fun j => st.getD j 0
  let a := g 0
  let b := g 1
  let c := g 2
  let d := g 3
  let e := g 4
  let f := g 5
  let gg := g 6
  let h := g 7
  let t1 := (h + bsig1 e + chF e f gg + kw.1 + kw.2) % 4294967296
  let t2 := (bsig0 a + majF a b c) % 4294967296
  [(t1 + t2) % 4294967296, a, b, c, (d + t1) % 4294967296, e, f, gg]

/-- Process one 16-word block against the running hash. -/
def sha256block (h : List Nat) (block : List Nat) : List Nat :=
  let w := sha256schedule block
  let st := (sha256k.zip w).foldl sha256round h
  (h.zip st).map (fun p => (p.1 + p.2) % 4294967296)

/-- Split a word list into 16-word blocks. -/
def chunk16 : List Nat → List (List Nat)
  | [] => []
  | a :: t => (a :: t).take 16 :: chunk16 ((a :: t).drop 16)
termination_by l => l.length
decreasing_by
  simp only [List.length_drop, List.length_cons]
  omega

/-- Render a 32-bit word as 8 lowercase hex digits. -/
def wordHex (w : Nat) : List Char :=
  [hexDigit ((w >>> 28) % 16), hexDigit ((w >>> 24) % 16),
   hexDigit ((w >>> 20) % 16), hexDigit ((w >>> 16) % 16),
   hexDigit ((w >>> 12) % 16), hexDigit ((w >>> 8) % 16),
   hexDigit ((w >>> 4) % 16), hexDigit (w % 16)]

/-- SHA-256 of a byte list, as a lowercase hex string. -/
def sha256hexBytes (msg : List Nat) : String :=
  let h0 := [1779033703, 3144134277, 1013904242, 2773480762,
             1359893119, 2600822924, 528734635, 1541459225]
  let final := (chunk16 (bytesToWords (sha256pad msg))).foldl sha256block h0
  String.mk (final.flatMap wordHex)

/-- SHA-256 of a string's UTF-8 encoding, as `hashlib.sha256(...).hexdigest()`. -/
def sha256hex (s : String) : String :=
  sha256hexBytes (s.toUTF8.toList.map (fun b => b.toNat))

/-! ### `generate_fingerprint` (src/capibara/utils/fingerprinting.py lines 8-29)

The engine calls it with exactly the four named arguments
(prompt, language, context, security_policy) and no extra kwargs, so
the `**kwargs` parameter is not modelled. -/

/-- The `fingerprint_data` dict built by `generate_fingerprint` (its
serialization sorts the keys, so the insertion order here is immaterial). -/
def fingerprintData (prompt language : String) (context : List (String × CVal))
    (security_policy : Option String) : List (String × CVal) :=
  [("prompt", CVal.prim (PyVal.pstr (pyStrip prompt))),
   ("language", CVal.prim (PyVal.pstr (pyLower language))),
   ("context", CVal.dict (normalizeContext context)),
   ("security_policy",
     match security_policy with
     | some s => CVal.prim (PyVal.pstr s)
     | none => CVal.prim PyVal.pnone)]

/-- Embeds `generate_fingerprint`: SHA-256 of the canonical JSON serialization
of the fingerprint data. -/
def generate_fingerprint (prompt language : String)
    (context : List (String × CVal)) (security_policy : Option String) : String :=
  sha256hex (serCVal (CVal.dict (fingerprintData prompt language context security_policy)))

/-! ## A regex fragment (Python `re`, stdlib, modelled)

The scanner's patterns use only: literal characters, `\s` `\w` `\d`,
`.` (anything but a newline), character classes, `*`/`+` on a single
item, and (possibly top-level) alternation of groups.  Matching is
greedy with backtracking, like Python's engine on this fragment.  The
patterns themselves are transcribed into this AST next to their source
strings.  -/

/-- A single-character matcher. -/
inductive RItem where
  | lit : Char → RItem
  | cls : Bool → List Char → RItem
  | ws : RItem
  | wd : RItem
  | dg : RItem
  | anyc : RItem

/-- A regex element: one item, a starred/plussed item, or an
alternation of literal words (every alternation in the scanner's and
the built-in policies' patterns is an alternation of literal words, so
the embedding specializes groups to that case). -/
inductive RElem where
  | once : RItem → RElem
  | star : RItem → RElem
  | plus : RItem → RElem
  | alt : List String → RElem

/-- A regex is a sequence of elements. -/
abbrev Regex := List RElem

/-- Whether an item matches a character (`ci` = `re.IGNORECASE`). -/
def itemMatchB (ci : Bool) : RItem → Char → Bool
  | RItem.lit d, c => if ci then c.toLower == d.toLower else c == d
  | RItem.cls neg mem, c =>
    let inCls := mem.any (fun m => if ci then c.toLower == m.toLower else c == m)
    if neg then !inCls else inCls
  | RItem.ws, c =>
    c == ' ' || c == '\t' || c == '\n' || c == '\r' || c == '\x0b' || c == '\x0c'
  | RItem.wd, c => c.isAlphanum || c == '_'
  | RItem.dg, c => c.isDigit
  | RItem.anyc, c => c != '\n'

/-- Remainders after `item*`, greediest (longest consumption) first. -/
def starRems (ci : Bool) (i : RItem) : List Char → List (List Char)
  | [] => [[]]
  | c :: rest =>
    if itemMatchB ci i c then starRems ci i rest ++ [c :: rest] else [c :: rest]

/-- Remainders after `item+`, greediest first. -/
def plusRems (ci : Bool) (i : RItem) : List Char → List (List Char)
  | [] => []
  | c :: rest => if itemMatchB ci i c then starRems ci i rest else []

/-- The remainder after stripping a literal word, when it is a prefix. -/
def litPrefixRem (ci : Bool) : List Char → List Char → Option (List Char)
  | [], s => some s
  | _ :: _, [] => none
  | w :: wrest, c :: srest =>
    if (if ci then c.toLower == w.toLower else c == w) then
      litPrefixRem ci wrest srest
    else none

/-- All remainders after matching one element at the head of the input,
in backtracking priority order (alternatives left to right). -/
def elemMatches (ci : Bool) : RElem → List Char → List (List Char)
  | RElem.once i, s =>
    match s with
    | [] => []
    | c :: rest => if itemMatchB ci i c then [rest] else []
  | RElem.star i, s => starRems ci i s
  | RElem.plus i, s => plusRems ci i s
  | RElem.alt words, s => words.filterMap (fun w => litPrefixRem ci w.toList s)

/-- All remainders after matching the sequence at the head of the
input, in backtracking priority order. -/
def seqMatches (ci : Bool) : Regex → List Char → List (List Char)
  | [], s => [s]
  | e :: rest, s => (elemMatches ci e s).flatMap (seqMatches ci rest)

/-- Length of the engine's preferred match at the head of the input. -/
def firstMatchLen (ci : Bool) (r : Regex) (s : List Char) : Option Nat :=
  match seqMatches ci r s with
  | [] => none
  | rem :: _ => some (s.length - rem.length)

/-- Models `re.match(pattern, s)` success: a match anchored at the start
(case-sensitive, as in `_is_import_allowed`/`_is_function_allowed`). -/
def reMatchB (r : Regex) (s : String) : Bool :=
  !(seqMatches false r s.toList).isEmpty

/-- Models the `re.finditer` scan from a position: non-overlapping matches, left
to right, as `(start offset, matched text)` pairs.  `skip` counts
positions still covered by the previous match. -/
def findIterFrom (ci : Bool) (r : Regex) : List Char → Nat → Nat → List (Nat × String)
  | [], _, _ => []
  | c :: rest, pos, skip =>
    match skip with
    | Nat.succ k => findIterFrom ci r rest (pos + 1) k
    | 0 =>
      match firstMatchLen ci r (c :: rest) with
      | some n =>
        if n = 0 then (pos, "") :: findIterFrom ci r rest (pos + 1) 0
        else (pos, String.mk ((c :: rest).take n)) ::
          findIterFrom ci r rest (pos + 1) (n - 1)
      | none => findIterFrom ci r rest (pos + 1) 0

/-- Models `re.finditer(pattern, code, re.IGNORECASE)` over a whole string. -/
def pyFindIter (r : Regex) (code : String) : List (Nat × String) :=
  findIterFrom true r code.toList 0 0

/-- Embeds `code[: match.start()].count("\n") + 1`. -/
def lineNumberAt (code : String) (start : Nat) : Nat :=
  ((code.toList.take start).count '\n') + 1

/-- The sequence of literal characters of `s` (helper for transcribing
patterns whose characters are all literal). -/
def lits (s : String) : Regex := s.toList.map (fun c => RElem.once (RItem.lit c))

/-! ## Security models (src/capibara/models) -/

/-- Embeds `SecurityViolation` (src/capibara/models/security.py).  Randomized
`hash(...)` components of `violation_id` are modelled by the hashed
text itself; `code_snippet` carries the node's source text in place of
`ast.unparse`. -/
structure SecurityViolation where
  violation_id : String
  rule_name : String
  severity : String
  message : String
  pattern_matched : String
  line_number : Option Nat := none
  code_snippet : Option String := none
deriving DecidableEq, Repr

/-- Embeds `SecurityScanResult` (src/capibara/models/security.py), the fields
the scanner populates. -/
structure SecurityScanResult where
  scan_id : String
  script_id : String
  violations : List SecurityViolation
  passed : Bool
  scan_duration_ms : Nat
  rules_applied : List String
deriving DecidableEq, Repr

/-- Embeds `ResourceLimits` (src/capibara/models/manifests.py). -/
structure ResourceLimits where
  cpu_time_seconds : Nat := 30
  memory_mb : Nat := 512
  execution_time_seconds : Nat := 60
  max_file_size_mb : Nat := 10
  max_files : Nat := 100
  network_access : Bool := false
  allow_subprocess : Bool := false
deriving DecidableEq, Repr

/-- Embeds `SecurityRule` (src/capibara/models/manifests.py); `pattern` holds
the transcription of the rule's regex. -/
structure SecurityRule where
  name : String
  description : String
  pattern : Regex
  severity : String := "error"
  action : String := "block"

/-- Embeds `SecurityPolicy` (src/capibara/models/manifests.py); the
allowed/blocked lists hold transcriptions of the `re.match` patterns. -/
structure SecurityPolicy where
  name : String
  description : String
  rules : List SecurityRule
  resource_limits : ResourceLimits := {}
  allowed_imports : List Regex := []
  blocked_imports : List Regex := []
  allowed_functions : List Regex := []
  blocked_functions : List Regex := []

/-! ## Python AST nodes (stdlib `ast`, modelled)

`ast.walk` yields every node of the parsed tree; the scanner only
distinguishes `Import`, `ImportFrom` and `Call` nodes, so a parsed
module is modelled as the walk's node list.  Each relevant node carries
its `lineno` and its unparsed source text. -/

/-- One node of the `ast.walk` sequence. -/
inductive PyNode where
  | importNode : List String → Option Nat → String → PyNode
  | importFrom : Option String → Option Nat → String → PyNode
  | callName : String → Option Nat → String → PyNode
  | callAttr : String → Option Nat → String → PyNode
  | callOther : Option Nat → String → PyNode
  | other : PyNode
deriving DecidableEq, Repr

/-- The outcome of `ast.parse(code)` (stdlib), supplied to the embedded
scanner as a parameter. -/
inductive ParseResult where
  | ok : List PyNode → ParseResult
  | syntaxError : String → Option Nat → ParseResult
deriving DecidableEq, Repr

/-- Whether the node is an `Import` or `ImportFrom`. -/
def PyNode.isImportLike : PyNode → Bool
  | PyNode.importNode _ _ _ => true
  | PyNode.importFrom _ _ _ => true
  | _ => false

/-- Whether the node is a `Call`. -/
def PyNode.isCall : PyNode → Bool
  | PyNode.callName _ _ _ => true
  | PyNode.callAttr _ _ _ => true
  | PyNode.callOther _ _ => true
  | _ => false

/-- The node's `lineno`, when it has one. -/
def PyNode.lineNo : PyNode → Option Nat
  | PyNode.importNode _ l _ => l
  | PyNode.importFrom _ l _ => l
  | PyNode.callName _ l _ => l
  | PyNode.callAttr _ l _ => l
  | PyNode.callOther l _ => l
  | PyNode.other => none

/-- The node's source text (standing in for `ast.unparse(node)`). -/
def PyNode.srcText : PyNode → String
  | PyNode.importNode _ _ s => s
  | PyNode.importFrom _ _ s => s
  | PyNode.callName _ _ s => s
  | PyNode.callAttr _ _ s => s
  | PyNode.callOther _ s => s
  | PyNode.other => ""

/-! ## ASTScanner (src/capibara/security/ast_scanner.py) -/

namespace ASTScanner

/-- The built-in dangerous import set (constructor, lines 17-47). -/
def dangerous_imports : List String :=
  ["os", "subprocess", "sys", "shutil", "glob", "fnmatch", "socket",
   "urllib", "http", "requests", "urllib3", "pickle", "marshal", "shelve",
   "dbm", "ctypes", "cffi", "cProfile", "pstats", "multiprocessing",
   "threading", "concurrent", "importlib", "imp", "pkgutil", "eval",
   "exec", "compile", "__import__"]

/-- The built-in dangerous function set (constructor, lines 49-61). -/
def dangerous_functions : List String :=
  ["eval", "exec", "compile", "__import__", "open", "file", "input",
   "raw_input", "exit", "quit", "reload"]

/-- A quote-or-double-quote character class (`[\x27"]` in the source
patterns, written with `Char.ofNat 39` for the single quote). -/
def quoteCls : RItem := RItem.cls false [Char.ofNat 39, '"']

/-- The built-in dangerous regex patterns (constructor, lines 63-72):
`os\.system\s*\(`, `subprocess\.`, `eval\s*\(`, `exec\s*\(`,
`__import__\s*\(`, `compile\s*\(`, `open\s*\([^)]*[quote]w[quote]`,
`file\s*\([^)]*[quote]w[quote]`. -/
def dangerous_patterns : List Regex :=
  [lits "os.system" ++ [RElem.star RItem.ws, RElem.once (RItem.lit '(')],
   lits "subprocess.",
   lits "eval" ++ [RElem.star RItem.ws, RElem.once (RItem.lit '(')],
   lits "exec" ++ [RElem.star RItem.ws, RElem.once (RItem.lit '(')],
   lits "__import__" ++ [RElem.star RItem.ws, RElem.once (RItem.lit '(')],
   lits "compile" ++ [RElem.star RItem.ws, RElem.once (RItem.lit '(')],
   lits "open" ++ [RElem.star RItem.ws, RElem.once (RItem.lit '('),
                   RElem.star (RItem.cls true [')']), RElem.once quoteCls,
                   RElem.once (RItem.lit 'w'), RElem.once quoteCls],
   lits "file" ++ [RElem.star RItem.ws, RElem.once (RItem.lit '('),
                   RElem.star (RItem.cls true [')']), RElem.once quoteCls,
                   RElem.once (RItem.lit 'w'), RElem.once quoteCls]]

/-- Embeds `name.split(".")[0]`: the characters before the first dot. -/
def rootOfDotted (name : String) : String :=
  String.mk (name.toList.takeWhile (fun c => c ≠ '.'))

/-- Embeds `_get_module_name` (lines 413-419): root of the first dotted name of
an `Import`; the (un-split) module of an `ImportFrom`, `""` when absent. -/
def _get_module_name : PyNode → String
  | PyNode.importNode names _ _ => rootOfDotted (names.headD "")
  | PyNode.importFrom m _ _ => m.getD ""
  | _ => ""

/-- Embeds `_get_function_name` (lines 421-427): the simple name of the callee. -/
def _get_function_name : PyNode → String
  | PyNode.callName id _ _ => id
  | PyNode.callAttr attr _ _ => attr
  | _ => ""

/-- Embeds `_is_import_allowed` (lines 429-441): allowed patterns win, then
blocked patterns deny, otherwise allowed. -/
def _is_import_allowed (module_name : String) (policy : SecurityPolicy) : Bool :=
  if policy.allowed_imports.any (fun pat => reMatchB pat module_name) then true
  else if policy.blocked_imports.any (fun pat => reMatchB pat module_name) then false
  else true

/-- Embeds `_is_function_allowed` (lines 443-455). -/
def _is_function_allowed (func_name : String) (policy : SecurityPolicy) : Bool :=
  if policy.allowed_functions.any (fun pat => reMatchB pat func_name) then true
  else if policy.blocked_functions.any (fun pat => reMatchB pat func_name) then false
  else true

/-- The `dangerous_import` violation appended for one import node
(lines 326-336). -/
def mkImportViolation (node : PyNode) : SecurityViolation :=
  { violation_id := "import_" ++ _get_module_name node,
    rule_name := "dangerous_import",
    severity := "error",
    message := "Dangerous import detected: " ++ _get_module_name node,
    pattern_matched := _get_module_name node,
    line_number := node.lineNo,
    code_snippet := some node.srcText }

/-- The body of the `_scan_imports` walk for one node (lines 317-336):
an `Import`/`ImportFrom` whose module is in the dangerous set yields a
`dangerous_import` violation unless a present policy allows it. -/
def importNodeViolations (policy : Option SecurityPolicy) (node : PyNode) :
    List SecurityViolation :=
  if node.isImportLike then
    if _get_module_name node ∈ dangerous_imports then
      if (match policy with
          | some p => _is_import_allowed (_get_module_name node) p
          | none => false) then []
      else [mkImportViolation node]
    else []
  else []

/-- Embeds `_scan_imports` (lines 311-338). -/
def _scan_imports (nodes : List PyNode) (policy : Option SecurityPolicy) :
    List SecurityViolation :=
  nodes.flatMap (importNodeViolations policy)

/-- Embeds `_scan_function_calls` (lines 340-367). -/
def _scan_function_calls (nodes : List PyNode) (policy : Option SecurityPolicy) :
    List SecurityViolation :=
  nodes.flatMap (fun node =>
    if node.isCall then
      let func_name := _get_function_name node
      if func_name ∈ dangerous_functions then
        if (match policy with
            | some p => _is_function_allowed func_name p
            | none => false) then []
        else
          [{ violation_id := "function_" ++ func_name,
             rule_name := "dangerous_function",
             severity := "error",
             message := "Dangerous function call detected: " ++ func_name,
             pattern_matched := func_name,
             line_number := node.lineNo,
             code_snippet := some node.srcText }]
      else []
    else [])

/-- The shared shape of the scanner's regex sweeps: one violation per
`finditer` match of each pattern, severity `error`. -/
def regexSweep (idPrefix msgPrefix : String) (pats : List Regex) (code : String) :
    List SecurityViolation :=
  pats.flatMap (fun pat =>
    (pyFindIter pat code).map (fun m =>
      { violation_id := idPrefix ++ m.2,
        rule_name := "dangerous_pattern",
        severity := "error",
        message := msgPrefix ++ m.2,
        pattern_matched := m.2,
        line_number := some (lineNumberAt code m.1) }))

/-- Embeds `_scan_patterns` (lines 369-389): the built-in patterns over the raw
source. -/
def _scan_patterns (code : String) : List SecurityViolation :=
  regexSweep "pattern_" "Dangerous pattern detected: " dangerous_patterns code

/-- Embeds `_scan_generic` (lines 288-309): identical sweep used for
JavaScript and unsupported languages. -/
def _scan_generic (code : String) : List SecurityViolation :=
  regexSweep "generic_pattern_" "Dangerous pattern detected: " dangerous_patterns code

/-- Embeds `_apply_policy_rules` (lines 391-411). -/
def _apply_policy_rules (code : String) (policy : SecurityPolicy) :
    List SecurityViolation :=
  policy.rules.flatMap (fun rule =>
    (pyFindIter rule.pattern code).map (fun m =>
      { violation_id := "policy_" ++ rule.name ++ "_" ++ m.2,
        rule_name := rule.name,
        severity := rule.severity,
        message := "Policy violation: " ++ rule.description,
        pattern_matched := m.2,
        line_number := some (lineNumberAt code m.1) }))

/-- Embeds `_scan_python` (lines 140-175): parse, then imports, calls, the
pattern sweep and the policy rules; a `SyntaxError` yields the single
`syntax_error` violation instead. -/
def _scan_python (code : String) (parse : ParseResult)
    (policy : Option SecurityPolicy) : List SecurityViolation :=
  match parse with
  | ParseResult.ok nodes =>
    _scan_imports nodes policy ++ _scan_function_calls nodes policy ++
      _scan_patterns code ++
      (match policy with
       | some p => _apply_policy_rules code p
       | none => [])
  | ParseResult.syntaxError msg lineno =>
    [{ violation_id := "syntax_error",
       rule_name := "syntax_error",
       severity := "error",
       message := "Python syntax error: " ++ msg,
       pattern_matched := "",
       line_number := lineno }]

/-- The JavaScript pattern bank (lines 184-195): `eval\s*\(`,
`Function\s*\(`, `setTimeout\s*\([^,]*,\s*[^)]*\)`,
`setInterval\s*\([^,]*,\s*[^)]*\)`, `document\.write\s*\(`,
`innerHTML\s*=`, `outerHTML\s*=`, `document\.createElement\s*\(`,
`XMLHttpRequest`, `fetch\s*\(`. -/
def js_patterns : List Regex :=
  [lits "eval" ++ [RElem.star RItem.ws, RElem.once (RItem.lit '(')],
   lits "Function" ++ [RElem.star RItem.ws, RElem.once (RItem.lit '(')],
   lits "setTimeout" ++ [RElem.star RItem.ws, RElem.once (RItem.lit '('),
     RElem.star (RItem.cls true [',']), RElem.once (RItem.lit ','),
     RElem.star RItem.ws, RElem.star (RItem.cls true [')']),
     RElem.once (RItem.lit ')')],
   lits "setInterval" ++ [RElem.star RItem.ws, RElem.once (RItem.lit '('),
     RElem.star (RItem.cls true [',']), RElem.once (RItem.lit ','),
     RElem.star RItem.ws, RElem.star (RItem.cls true [')']),
     RElem.once (RItem.lit ')')],
   lits "document.write" ++ [RElem.star RItem.ws, RElem.once (RItem.lit '(')],
   lits "innerHTML" ++ [RElem.star RItem.ws, RElem.once (RItem.lit '=')],
   lits "outerHTML" ++ [RElem.star RItem.ws, RElem.once (RItem.lit '=')],
   lits "document.createElement" ++ [RElem.star RItem.ws, RElem.once (RItem.lit '(')],
   lits "XMLHttpRequest",
   lits "fetch" ++ [RElem.star RItem.ws, RElem.once (RItem.lit '(')]]

/-- Embeds `_scan_javascript` (lines 177-214): the JS bank, then the generic
sweep. -/
def _scan_javascript (code : String) : List SecurityViolation :=
  regexSweep "js_pattern_" "Dangerous JavaScript pattern detected: " js_patterns code ++
    _scan_generic code

/-- The Bash pattern bank (lines 223-236): `rm\s+-rf`, `mkdir\s+/`,
`chmod\s+777`, `wget\s+`, `curl\s+`, `nc\s+`, `netcat\s+`, `ssh\s+`,
`scp\s+`, `rsync\s+`, `>&\s*/dev/null`, `2>&1`. -/
def bash_patterns : List Regex :=
  [lits "rm" ++ [RElem.plus RItem.ws] ++ lits "-rf",
   lits "mkdir" ++ [RElem.plus RItem.ws, RElem.once (RItem.lit '/')],
   lits "chmod" ++ [RElem.plus RItem.ws] ++ lits "777",
   lits "wget" ++ [RElem.plus RItem.ws],
   lits "curl" ++ [RElem.plus RItem.ws],
   lits "nc" ++ [RElem.plus RItem.ws],
   lits "netcat" ++ [RElem.plus RItem.ws],
   lits "ssh" ++ [RElem.plus RItem.ws],
   lits "scp" ++ [RElem.plus RItem.ws],
   lits "rsync" ++ [RElem.plus RItem.ws],
   [RElem.once (RItem.lit '>'), RElem.once (RItem.lit '&'), RElem.star RItem.ws] ++
     lits "/dev/null",
   lits "2>&1"]

/-- Embeds `_scan_bash` (lines 216-252). -/
def _scan_bash (code : String) : List SecurityViolation :=
  regexSweep "bash_pattern_" "Dangerous Bash pattern detected: " bash_patterns code

/-- The PowerShell pattern bank (lines 261-270): `Invoke-Expression`,
`Invoke-Command`, `Start-Process`, `Remove-Item\s+-Recurse`,
`Set-ExecutionPolicy`, `Get-Content\s+.*\.exe`, `Invoke-WebRequest`,
`Invoke-RestMethod`. -/
def ps_patterns : List Regex :=
  [lits "Invoke-Expression",
   lits "Invoke-Command",
   lits "Start-Process",
   lits "Remove-Item" ++ [RElem.plus RItem.ws] ++ lits "-Recurse",
   lits "Set-ExecutionPolicy",
   lits "Get-Content" ++ [RElem.plus RItem.ws, RElem.star RItem.anyc] ++ lits ".exe",
   lits "Invoke-WebRequest",
   lits "Invoke-RestMethod"]

/-- Embeds `_scan_powershell` (lines 254-286). -/
def _scan_powershell (code : String) : List SecurityViolation :=
  regexSweep "ps_pattern_" "Dangerous PowerShell pattern detected: " ps_patterns code

/-- Embeds `_get_applied_rules` (lines 457-464). -/
def _get_applied_rules (policy : Option SecurityPolicy) : List String :=
  ["dangerous_import", "dangerous_function", "dangerous_pattern"] ++
    (match policy with
     | some p => p.rules.map (fun r => r.name)
     | none => [])

/-- Embeds `scan` (lines 74-138), normal path: dispatch on the lowercased
language, collect violations, and pass iff no violation has severity
`error`.  The `scan_id` is modelled without its randomized `hash(code)`
component, and `parse` supplies the `ast.parse` outcome consumed by the
Python branch. -/
def scan (code : String) (parse : ParseResult) (language : String)
    (policy : Option SecurityPolicy) : SecurityScanResult :=
  let scan_id := "scan_" ++ toString code.length
  let violations :=
    if pyLower language == "python" then _scan_python code parse policy
    else if pyLower language == "javascript" then _scan_javascript code
    else if pyLower language == "bash" || pyLower language == "sh" then
      _scan_bash code
    else if pyLower language == "powershell" then _scan_powershell code
    else _scan_generic code
  let blocking_violations := violations.filter (fun v => v.severity == "error")
  { scan_id := scan_id,
    script_id := "",
    violations := violations,
    passed := blocking_violations.length == 0,
    scan_duration_ms := 0,
    rules_applied := _get_applied_rules policy }

/-- Embeds `scan` (lines 120-138), exception path: when the scan body raises
with message `e`, a failed result with a single `scan_error` violation
is returned. -/
def scanExceptionResult (code : String) (e : String) : SecurityScanResult :=
  let scan_id := "scan_" ++ toString code.length
  { scan_id := scan_id,
    script_id := "",
    violations :=
      [{ violation_id := "scan_error_" ++ scan_id,
         rule_name := "scan_error",
         severity := "error",
         message := "Security scan failed: " ++ e,
         pattern_matched := "" }],
    passed := false,
    scan_duration_ms := 0,
    rules_applied := [] }

end ASTScanner

/-! ## PolicyManager built-in policies (src/capibara/security/policy_manager.py)

The two built-in policies the claims exercise, with their rule regexes
and `re.match` patterns transcribed next to the source strings. -/

namespace PolicyManager

/-- Alternation of literal words (helper for transcribing `(a|b|...)`). -/
def altWords (ws : List String) : RElem := RElem.alt ws

/-- The `strict` built-in policy (lines 67-131).  Rules:
`no_dangerous_imports` = `import\s+(os|subprocess|sys|shutil|socket|urllib|requests|pickle|ctypes|multiprocessing|threading|eval|exec|compile|__import__)`;
`no_dangerous_functions` = `(eval|exec|compile|__import__|open|file|input|exit|quit)\s*\(`;
`no_system_calls` = `os\.system|subprocess\.|os\.popen`. -/
def strict_policy : SecurityPolicy :=
  { name := "strict",
    description := "Strict security policy with maximum restrictions",
    rules :=
      [{ name := "no_dangerous_imports",
         description := "Block dangerous imports",
         pattern := lits "import" ++ [RElem.plus RItem.ws,
           altWords ["os", "subprocess", "sys", "shutil", "socket", "urllib",
                     "requests", "pickle", "ctypes", "multiprocessing",
                     "threading", "eval", "exec", "compile", "__import__"]],
         severity := "error", action := "block" },
       { name := "no_dangerous_functions",
         description := "Block dangerous function calls",
         pattern := [altWords ["eval", "exec", "compile", "__import__", "open",
                               "file", "input", "exit", "quit"],
                     RElem.star RItem.ws, RElem.once (RItem.lit '(')],
         severity := "error", action := "block" },
       { name := "no_system_calls",
         description := "Block system calls",
         pattern := [RElem.alt ["os.system", "subprocess.", "os.popen"]],
         severity := "error", action := "block" }],
    resource_limits :=
      { cpu_time_seconds := 10, memory_mb := 128, execution_time_seconds := 30,
        max_file_size_mb := 1, max_files := 10, network_access := false,
        allow_subprocess := false },
    blocked_imports :=
      [lits "os", lits "subprocess", lits "sys", lits "shutil", lits "socket",
       lits "urllib", lits "requests", lits "pickle", lits "ctypes",
       lits "multiprocessing", lits "threading", lits "eval", lits "exec",
       lits "compile", lits "__import__"],
    blocked_functions :=
      [lits "eval", lits "exec", lits "compile", lits "__import__",
       lits "open", lits "file", lits "input", lits "exit", lits "quit",
       lits "reload"] }

/-- The `permissive` built-in policy (lines 195-225).  Rules:
`no_eval_exec` = `(eval|exec|compile|__import__)\s*\(` at severity
`error`; `warn_dangerous_imports` =
`import\s+(subprocess|socket|urllib|requests|pickle|ctypes)` at
severity `warning`. -/
def permissive_policy : SecurityPolicy :=
  { name := "permissive",
    description := "Permissive security policy with minimal restrictions",
    rules :=
      [{ name := "no_eval_exec",
         description := "Block eval and exec",
         pattern := [altWords ["eval", "exec", "compile", "__import__"],
                     RElem.star RItem.ws, RElem.once (RItem.lit '(')],
         severity := "error", action := "block" },
       { name := "warn_dangerous_imports",
         description := "Warn about dangerous imports",
         pattern := lits "import" ++ [RElem.plus RItem.ws,
           altWords ["subprocess", "socket", "urllib", "requests", "pickle",
                     "ctypes"]],
         severity := "warning", action := "warn" }],
    resource_limits :=
      { cpu_time_seconds := 60, memory_mb := 512, execution_time_seconds := 120,
        max_file_size_mb := 10, max_files := 100, network_access := false,
        allow_subprocess := false },
    blocked_imports :=
      [lits "eval", lits "exec", lits "compile", lits "__import__"],
    blocked_functions :=
      [lits "eval", lits "exec", lits "compile", lits "__import__"] }

end PolicyManager

/-! ## ContainerRunner (src/capibara/runner/container_runner.py)

Docker calls are collaborators: their outcomes are parameters.  Wall
times are not tracked by the source (`execution_time_ms = 0`), floats
are `ℚ`, and numeric text rendering inside the violation messages is
modelled coarsely (no claim depends on it). -/

/-- Embeds `ExecutionResult` (src/capibara/models/responses.py). -/
structure ExecutionResult where
  success : Bool
  exit_code : Int
  stdout : String := ""
  stderr : String := ""
  execution_time_ms : Nat
  memory_used_mb : ℚ := 0
  cpu_time_ms : Int := 0
  security_violations : List String := []
  resource_limits_exceeded : List String := []
deriving DecidableEq, Repr

/-- The fields of the Docker stats dict the runner reads
(`memory_stats.usage`, `cpu_stats`/`precpu_stats` totals, the per-CPU
list length); a `none` field models a missing key (`KeyError`). -/
structure ContainerStats where
  memUsageBytes : Option Nat := none
  cpuTotal : Option Int := none
  preCpuTotal : Option Int := none
  systemCpu : Option Int := none
  preSystemCpu : Option Int := none
  percpuCount : Option Nat := none
deriving DecidableEq, Repr

/-- Python `int(...)` on a rational: truncation toward zero. -/
def pyInt (q : ℚ) : Int := q.num / (q.den : Int)

namespace ContainerRunner

/-- Embeds `_parse_logs` (lines 250-265): split on newlines; lines starting
with `STDERR:` go to stderr with the prefix dropped. -/
def _parse_logs (logText : String) : String × String :=
  let lines := logText.splitOn "\n"
  let stdout_lines := lines.filter (fun l => !(l.startsWith "STDERR:"))
  let stderr_lines := (lines.filter (fun l => l.startsWith "STDERR:")).map
    (fun l => l.drop 7)
  (String.intercalate "\n" stdout_lines, String.intercalate "\n" stderr_lines)

/-- Embeds `_calculate_cpu_time` (lines 267-283): CPU percent from the stat
deltas, scaled to milliseconds; any missing key or non-positive delta
yields 0. -/
def _calculate_cpu_time (stats : ContainerStats) : Int :=
  match stats.cpuTotal, stats.preCpuTotal, stats.systemCpu,
      stats.preSystemCpu, stats.percpuCount with
  | some ct, some pct, some sc, some psc, some ncpu =>
    let cpu_delta : Int := ct - pct
    let system_delta : Int := sc - psc
    if system_delta > 0 ∧ cpu_delta > 0 then
      pyInt ((cpu_delta : ℚ) / (system_delta : ℚ) * (ncpu : ℚ) * 1000)
    else 0
  | _, _, _, _, _ => 0

/-- Embeds `_check_resource_limits` (lines 285-300): one message when observed
memory exceeds `memory_mb`, one when CPU milliseconds exceed
`cpu_time_seconds * 1000`. -/
def _check_resource_limits (memory_used_mb : ℚ) (cpu_time_ms : Int)
    (resource_limits : ResourceLimits) : List String :=
  (if memory_used_mb > (resource_limits.memory_mb : ℚ) then
    ["Memory limit exceeded: " ++ toString memory_used_mb ++ "MB > " ++
      toString resource_limits.memory_mb ++ "MB"]
  else []) ++
  (if cpu_time_ms > (resource_limits.cpu_time_seconds : Int) * 1000 then
    ["CPU time limit exceeded: " ++ toString cpu_time_ms ++ "ms > " ++
      toString (resource_limits.cpu_time_seconds * 1000) ++ "ms"]
  else [])

/-- Embeds `_execute_in_container` (lines 172-221).  `waitResult` is the
container's exit code, or `none` when `container.wait` timed out or
raised (the container is then killed and the exit code is 124);
`stats?` is `none` when `container.stats` raised. -/
def _execute_in_container (waitResult : Option Int) (logs : String)
    (stats? : Option ContainerStats) (resource_limits : ResourceLimits) :
    ExecutionResult :=
  let exit_code : Int := match waitResult with
    | some c => c
    | none => 124
  let parsed := _parse_logs logs
  let memory_used_mb : ℚ := match stats? with
    | some st => ((st.memUsageBytes.getD 0 : Int) : ℚ) / (1024 * 1024)
    | none => 0
  let cpu_time_ms : Int := match stats? with
    | some st => _calculate_cpu_time st
    | none => 0
  let resource_violations :=
    _check_resource_limits memory_used_mb cpu_time_ms resource_limits
  { success := exit_code == 0 && resource_violations.length == 0,
    exit_code := exit_code,
    stdout := parsed.1,
    stderr := parsed.2,
    execution_time_ms := 0,
    memory_used_mb := memory_used_mb,
    cpu_time_ms := cpu_time_ms,
    security_violations := [],
    resource_limits_exceeded := resource_violations }

/-- The result built in `execute`'s `except` branch (lines 74-84). -/
def executeErrorResult (e : String) : ExecutionResult :=
  { success := false,
    exit_code := -1,
    stdout := "",
    stderr := "Execution failed: " ++ e,
    execution_time_ms := 0,
    memory_used_mb := 0,
    cpu_time_ms := 0,
    security_violations := [],
    resource_limits_exceeded := [] }

/-- Which step of `execute` (lines 26-84) raises, if any.  A wall-clock
timeout is NOT a failure here: `_execute_in_container` handles it
internally (kill + exit code 124) and returns normally.
`atContainerStart` is a raise in `container.start()` inside
`_create_container`, after the container object was created but before
its id was returned to `execute`. -/
inductive ExecFail where
  | noFail : ExecFail
  | atCreateWorkspace : ExecFail
  | atCreateContainer : ExecFail
  | atContainerStart : ExecFail
  | atExecInContainer : ExecFail
deriving DecidableEq, Repr

/-- What `execute` did to the external world: what was created, and
which cleanup helpers were invoked before returning. -/
structure ExecTrace where
  workspaceCreated : Bool
  containerCreated : Bool
  containerCleanupCalled : Bool
  workspaceCleanupCalled : Bool
deriving DecidableEq, Repr

/-- Embeds `execute` (lines 26-84): stage workspace, create + start container,
run, then `_cleanup_container` and `_cleanup_workspace`; the `except`
branch calls `_cleanup_container` only when `container_id` was
assigned, never `_cleanup_workspace`, and returns the error result. -/
def execute (fail : ExecFail) (errMsg : String) (waitResult : Option Int)
    (logs : String) (stats? : Option ContainerStats)
    (resource_limits : ResourceLimits) : ExecutionResult × ExecTrace :=
  match fail with
  | ExecFail.noFail =>
    (_execute_in_container waitResult logs stats? resource_limits,
     { workspaceCreated := true, containerCreated := true,
       containerCleanupCalled := true, workspaceCleanupCalled := true })
  | ExecFail.atCreateWorkspace =>
    (executeErrorResult errMsg,
     { workspaceCreated := false, containerCreated := false,
       containerCleanupCalled := false, workspaceCleanupCalled := false })
  | ExecFail.atCreateContainer =>
    (executeErrorResult errMsg,
     { workspaceCreated := true, containerCreated := false,
       containerCleanupCalled := false, workspaceCleanupCalled := false })
  | ExecFail.atContainerStart =>
    (executeErrorResult errMsg,
     { workspaceCreated := true, containerCreated := true,
       containerCleanupCalled := false, workspaceCleanupCalled := false })
  | ExecFail.atExecInContainer =>
    (executeErrorResult errMsg,
     { workspaceCreated := true, containerCreated := true,
       containerCleanupCalled := true, workspaceCleanupCalled := false })

end ContainerRunner

/-! ## CacheManager (src/capibara/core/cache_manager.py)

Filesystem state is explicit: `files` maps fingerprints to artifact
file contents (`corrupt` = present but unreadable/unparsable), and
`metadata` is the `metadata.json` index.  ISO datetime strings are
modelled as integer timestamps (seconds); `now` is the current time. -/

/-- The artifact JSON fields `get_script` reads or writes.  Fields read
through `.get(key, default)` in the source are `Option`s. -/
structure ScriptData where
  script_id : String := ""
  prompt : String := ""
  language : String := ""
  code : String := ""
  fingerprint : String := ""
  security_policy : Option String := none
  llm_provider : Option String := none
  created_at : Int := 0
  cached_at : Int := 0
  cache_ttl : Option Int := none
  last_accessed_at : Int := 0
  access_count : Option Int := none
  cache_hit_count : Option Int := none
deriving DecidableEq, Repr

/-- An artifact file's content: readable data or read corruption. -/
inductive CacheFile where
  | corrupt : CacheFile
  | good : ScriptData → CacheFile
deriving DecidableEq, Repr

/-- One `metadata.json` index entry (the fields `store_script` writes,
lines 102-109). -/
structure MetaEntry where
  size_bytes : Int := 0
  cached_at : Int := 0
  last_accessed_at : Int := 0
  access_count : Int := 0
  language : String := ""
  prompt_length : Nat := 0
deriving DecidableEq, Repr

/-- The in-memory `stats` counters (constructor, lines 25-30). -/
structure CacheStats where
  hits : Nat := 0
  misses : Nat := 0
  evictions : Nat := 0
  total_size_bytes : Int := 0
deriving DecidableEq, Repr

/-- The cache manager's observable state. -/
structure CacheState where
  files : List (String × CacheFile) := []
  metadata : List (String × MetaEntry) := []
  stats : CacheStats := {}
deriving DecidableEq, Repr

namespace CacheManager

/-- Embeds `_is_expired` (lines 296-301): `now - cached_at > cache_ttl`
(default 3600). -/
def _is_expired (now : Int) (d : ScriptData) : Bool :=
  now - d.cached_at > d.cache_ttl.getD 3600

/-- Embeds `_evict_script` (lines 264-281): unlink the artifact file if
present, drop the index entry (subtracting its size), count one
eviction. -/
def _evict_script (st : CacheState) (fingerprint : String) : CacheState :=
  let files := st.files.filter (fun p => p.1 ≠ fingerprint)
  match st.metadata.lookup fingerprint with
  | some me =>
    { files := files,
      metadata := st.metadata.filter (fun p => p.1 ≠ fingerprint),
      stats := { st.stats with
        evictions := st.stats.evictions + 1,
        total_size_bytes := st.stats.total_size_bytes - me.size_bytes } }
  | none =>
    { files := files,
      metadata := st.metadata,
      stats := { st.stats with evictions := st.stats.evictions + 1 } }

/-- Embeds `_update_script_metadata` (lines 283-294): when the fingerprint is
indexed, overwrite the entry's `last_accessed_at` with the artifact's
and its `access_count` with `script_data.get("access_count", 0)`. -/
def _update_script_metadata (st : CacheState) (fingerprint : String)
    (script_data : ScriptData) : CacheState :=
  if (st.metadata.lookup fingerprint).isSome then
    { st with metadata := st.metadata.map (fun p =>
        if p.1 = fingerprint then
          (p.1, { p.2 with
            last_accessed_at := script_data.last_accessed_at,
            access_count := script_data.access_count.getD 0 })
        else p) }
  else st

/-- Embeds `get_script` (lines 32-64): missing file is a miss; an unreadable
file takes the `except` branch (miss, state otherwise untouched); an
expired artifact is evicted and becomes a miss; otherwise the artifact
is returned with `last_accessed_at` set to now, the index entry is
updated, and a hit is counted. -/
def get_script (st : CacheState) (now : Int) (fingerprint : String) :
    Option ScriptData × CacheState :=
  match st.files.lookup fingerprint with
  | none =>
    (none, { st with stats := { st.stats with misses := st.stats.misses + 1 } })
  | some CacheFile.corrupt =>
    (none, { st with stats := { st.stats with misses := st.stats.misses + 1 } })
  | some (CacheFile.good d) =>
    if _is_expired now d then
      let st2 := _evict_script st fingerprint
      (none, { st2 with stats := { st2.stats with misses := st2.stats.misses + 1 } })
    else
      let d2 := { d with last_accessed_at := now }
      let st2 := _update_script_metadata st fingerprint d2
      (some d2, { st2 with stats := { st2.stats with hits := st2.stats.hits + 1 } })

end CacheManager

/-! ## CapibaraEngine (src/capibara/core/engine.py)

`run_script`'s collaborators — the cache probe, the prompt processor,
the script generator, the id generator and the container runner — are
parameters holding their results; what the engine does with them (audit
events, store calls, the response or the raised error) is returned as
an explicit trace.  Audit `event_id`s (timestamp + md5) are omitted. -/

/-- Embeds `RunRequest` (src/capibara/models/requests.py), the fields
`run_script` reads. -/
structure RunRequest where
  prompt : String
  language : String := "python"
  context : Option (List (String × CVal)) := none
  security_policy : Option String := none
  llm_provider : Option String := none
  cache_ttl : Option Int := some 3600
  execute : Bool := false

/-- The `details` payload of an audit event (`_log_audit_event`
kwargs): nothing, one security violation, or one execution result. -/
inductive AuditDetail where
  | empty : AuditDetail
  | violation : SecurityViolation → AuditDetail
  | executionResult : ExecutionResult → AuditDetail
deriving DecidableEq, Repr

/-- An audit event as built by `_log_audit_event` (lines 191-207). -/
structure AuditEvent where
  event_type : String
  script_id : Option String
  message : String
  detail : AuditDetail
deriving DecidableEq, Repr

/-- The `metadata` dict of a stored script (engine lines 97-101). -/
structure ScriptMetadata where
  context : Option (List (String × CVal))
  processed_prompt : String
  scan_result : SecurityScanResult

/-- The `script_info` dict passed to `store_script` (lines 88-102). -/
structure StoredScript where
  script_id : String
  prompt : String
  language : String
  code : String
  fingerprint : String
  security_policy : Option String
  llm_provider : Option String
  created_at : Int
  metadata : ScriptMetadata

/-- Embeds `RunResponse` (src/capibara/models/responses.py), the fields
`run_script` populates (its `metadata` dict is carried separately in
the trace's store call). -/
structure RunResponse where
  script_id : String
  prompt : String
  language : String
  code : String
  execution_result : Option ExecutionResult
  cached : Bool
  cache_hit_count : Int := 0
  security_policy : Option String
  llm_provider : Option String
  fingerprint : String
  created_at : Int

/-- The errors `run_script` raises itself. -/
inductive EngineError where
  | securityError : String → List SecurityViolation → EngineError

/-- Observable effects of one `run_script` call. -/
structure EngineTrace where
  auditEvents : List AuditEvent
  storeCalls : List StoredScript
  cacheHitIncrements : List String

/-- A `run_script` call's outcome: the response or the raised error,
plus the trace. -/
structure RunOutcome where
  result : Except EngineError RunResponse
  trace : EngineTrace

namespace CapibaraEngine

/-- The event `_log_security_violations` (lines 181-189) emits per
violation. -/
def securityViolationEvent (v : SecurityViolation) : AuditEvent :=
  { event_type := "security_violation", script_id := none,
    message := "Event: security_violation", detail := AuditDetail.violation v }

/-- Embeds `_log_security_violations` (lines 181-189): one event per violation,
in order. -/
def _log_security_violations (scan_result : SecurityScanResult) : List AuditEvent :=
  scan_result.violations.map securityViolationEvent

/-- The `script_executed` event logged by `_execute_script`
(lines 158-179). -/
def scriptExecutedEvent (r : ExecutionResult) : AuditEvent :=
  { event_type := "script_executed", script_id := none,
    message := "Event: script_executed", detail := AuditDetail.executionResult r }

/-- Embeds `run_script` (lines 44-131).  Parameters standing for collaborator
results: `cached` (the cache probe), `processedPrompt` (prompt
processor), `scriptCode` (script generator), `scanResult` (the security
scan of `scriptCode`), `script_id`/`createdAt` (id and clock),
`lastProviderUsed` (generator bookkeeping), `execResult` (the container
runner, when execution is requested; the pre-execution inputs-rewriting
pass does not affect the trace).  -/
def run_script (req : RunRequest) (cached : Option ScriptData)
    (processedPrompt : String) (scriptCode : String)
    (scanResult : SecurityScanResult) (script_id : String) (createdAt : Int)
    (lastProviderUsed : Option String) (execResult : ExecutionResult) :
    RunOutcome :=
  let fingerprint := generate_fingerprint req.prompt req.language
    (req.context.getD []) req.security_policy
  match cached with
  | some c =>
    let execPart : Option ExecutionResult × List AuditEvent :=
      if req.execute then (some execResult, [scriptExecutedEvent execResult])
      else (none, [])
    { result := Except.ok
        { script_id := c.script_id, prompt := c.prompt, language := c.language,
          code := c.code, execution_result := execPart.1, cached := true,
          cache_hit_count := c.cache_hit_count.getD 0 + 1,
          security_policy := c.security_policy, llm_provider := c.llm_provider,
          fingerprint := c.fingerprint, created_at := c.created_at },
      trace := { auditEvents := execPart.2, storeCalls := [],
                 cacheHitIncrements := [c.script_id] } }
  | none =>
    if !scanResult.passed then
      { result := Except.error
          (EngineError.securityError "Script failed security scan"
            scanResult.violations),
        trace := { auditEvents := _log_security_violations scanResult,
                   storeCalls := [], cacheHitIncrements := [] } }
    else
      let info : StoredScript :=
        { script_id := script_id, prompt := req.prompt,
          language := req.language, code := scriptCode,
          fingerprint := fingerprint, security_policy := req.security_policy,
          llm_provider := lastProviderUsed, created_at := createdAt,
          metadata := { context := req.context,
                        processed_prompt := processedPrompt,
                        scan_result := scanResult } }
      let execPart : Option ExecutionResult × List AuditEvent :=
        if req.execute then (some execResult, [scriptExecutedEvent execResult])
        else (none, [])
      let genEvent : AuditEvent :=
        { event_type := "script_generated", script_id := some script_id,
          message := "Event: script_generated", detail := AuditDetail.empty }
      { result := Except.ok
          { script_id := script_id, prompt := req.prompt,
            language := req.language, code := scriptCode,
            execution_result := execPart.1, cached := false,
            cache_hit_count := 0, security_policy := req.security_policy,
            llm_provider := lastProviderUsed, fingerprint := fingerprint,
            created_at := createdAt },
        trace := { auditEvents := execPart.2 ++ [genEvent],
                   storeCalls := [info], cacheHitIncrements := [] } }

end CapibaraEngine

/-! ## Helper lemmas -/

theorem filter_error_empty_iff (l : List SecurityViolation) :
    ((l.filter (fun v => v.severity == "error")).length == 0) = true
      ↔ ∀ v ∈ l, v.severity ≠ "error" := by
  rw [beq_iff_eq, List.length_eq_zero, List.filter_eq_nil_iff]
  simp

theorem lookup_map_keyed (l : List (String × MetaEntry)) (fp : String)
    (g : MetaEntry → MetaEntry) :
    (l.map (fun p => if p.1 = fp then (p.1, g p.2) else p)).lookup fp
      = (l.lookup fp).map g := by
  induction l with
  | nil => rfl
  | cons a l ih =>
    obtain ⟨k, v⟩ := a
    simp only [List.map_cons]
    by_cases h : k = fp
    · subst h
      rw [if_pos rfl]
      simp [List.lookup]
    · rw [if_neg h]
      have hbeq : (fp == k) = false :=
        beq_eq_false_iff_ne.mpr (fun he => h he.symm)
      simp [List.lookup, hbeq, ih]

/-! ## Claim theorems and their concrete instances -/

/-- C7: Every `SecurityScanResult` returned by `ASTScanner.scan` — on
the normal path for every code, parse outcome, language and policy, and
on the internal-exception path — satisfies: `passed` is true iff no
violation in its list has severity `error`. -/
theorem scan_passed_iff_no_error_violation :
    (∀ (code : String) (parse : ParseResult) (language : String)
        (policy : Option SecurityPolicy),
      ((ASTScanner.scan code parse language policy).passed = true
        ↔ ∀ v ∈ (ASTScanner.scan code parse language policy).violations,
            v.severity ≠ "error"))
    ∧ (∀ (code e : String),
      ((ASTScanner.scanExceptionResult code e).passed = true
        ↔ ∀ v ∈ (ASTScanner.scanExceptionResult code e).violations,
            v.severity ≠ "error")) := by
  constructor
  · intro code parse language policy
    exact filter_error_empty_iff _
  · intro code e
    simp [ASTScanner.scanExceptionResult]

/-- C8: Every `ExecutionResult` returned by `ContainerRunner.execute` —
normal completion, the timeout result (`waitResult = none`, exit code
124), and every error-path result — satisfies: `success` is true iff
`exit_code = 0` and `resource_limits_exceeded` is empty. -/
theorem execute_success_iff_exit_zero_and_no_limits :
    ∀ (fail : ContainerRunner.ExecFail) (errMsg : String)
      (waitResult : Option Int) (logs : String)
      (stats? : Option ContainerStats) (rl : ResourceLimits),
      ((ContainerRunner.execute fail errMsg waitResult logs stats? rl).1.success = true
        ↔ ((ContainerRunner.execute fail errMsg waitResult logs stats? rl).1.exit_code = 0
            ∧ (ContainerRunner.execute fail errMsg waitResult logs stats? rl).1.resource_limits_exceeded = [])) := by
  intro fail errMsg waitResult logs stats? rl
  cases fail
  case noFail =>
    simp only [ContainerRunner.execute, ContainerRunner._execute_in_container]
    simp [Bool.and_eq_true, List.length_eq_zero]
  all_goals
    simp [ContainerRunner.execute, ContainerRunner.executeErrorResult]

/-- C2 (counterexample): when `_execute_in_container` raises, `execute`
takes its `except` branch, which removes the container but never calls
`_cleanup_workspace`: the staged workspace survives the call, refuting
the claim that both are cleaned up on every exit path. -/
theorem execute_exec_error_leaks_workspace :
    ((ContainerRunner.execute ContainerRunner.ExecFail.atExecInContainer
        "boom" none "" none {}).2.workspaceCreated = true)
    ∧ ((ContainerRunner.execute ContainerRunner.ExecFail.atExecInContainer
        "boom" none "" none {}).2.workspaceCleanupCalled = false)
    ∧ ((ContainerRunner.execute ContainerRunner.ExecFail.atExecInContainer
        "boom" none "" none {}).2.containerCreated = true)
    ∧ ((ContainerRunner.execute ContainerRunner.ExecFail.atExecInContainer
        "boom" none "" none {}).2.containerCleanupCalled = true) := by
  refine ⟨rfl, rfl, rfl, rfl⟩

/-- C2 (amended): on normal completion (including the wall-clock
timeout, which `_execute_in_container` converts to exit code 124) both
cleanup helpers run; on an internal exception the workspace cleanup
never runs, and the container cleanup runs only when the failure came
after `_create_container` returned the container id (a raise in
`container.start()` leaks the created container as well). -/
theorem execute_cleanup_characterization :
    ∀ (fail : ContainerRunner.ExecFail) (errMsg : String)
      (waitResult : Option Int) (logs : String)
      (stats? : Option ContainerStats) (rl : ResourceLimits),
      (((ContainerRunner.execute fail errMsg waitResult logs stats? rl).2.workspaceCleanupCalled = true)
        ↔ fail = ContainerRunner.ExecFail.noFail)
      ∧ (((ContainerRunner.execute fail errMsg waitResult logs stats? rl).2.containerCleanupCalled = true)
        ↔ (fail = ContainerRunner.ExecFail.noFail
            ∨ fail = ContainerRunner.ExecFail.atExecInContainer))
      ∧ (((ContainerRunner.execute fail errMsg waitResult logs stats? rl).2.containerCreated = true)
        ↔ (fail = ContainerRunner.ExecFail.noFail
            ∨ fail = ContainerRunner.ExecFail.atContainerStart
            ∨ fail = ContainerRunner.ExecFail.atExecInContainer))
      ∧ (((ContainerRunner.execute fail errMsg waitResult logs stats? rl).2.workspaceCreated = true)
        ↔ fail ≠ ContainerRunner.ExecFail.atCreateWorkspace) := by
  intro fail errMsg waitResult logs stats? rl
  cases fail <;> simp [ContainerRunner.execute]

/-- C9 (code evaluated at the failing input): because `bool` is a
subclass of `int` in Python, the `isinstance(input_val, (int, float))`
branch captures booleans before the `isinstance(input_val, bool)`
branch can run, so a boolean input derives type `"number"` and the
string `"boolean"` can never appear in a normalized `inputs` entry. -/
theorem boolean_input_derives_number_type :
    (∀ b : Bool, inputType (CVal.prim (PyVal.pbool b)) = "number")
    ∧ (∀ v : CVal, inputType v ≠ "boolean")
    ∧ sortedDedupStr ([CVal.prim (PyVal.pbool true)].map inputType) = ["number"] := by
  refine ⟨fun b => rfl, ?_, by decide⟩
  intro v
  cases v with
  | prim p =>
    cases p with
    | pstr s =>
      by_cases h : pyFloatOk s = true <;> simp [inputType, h]
    | pint n => simp [inputType]
    | pfloat q => simp [inputType]
    | pbool b => simp [inputType]
    | pnone => simp [inputType]
  | list xs => simp [inputType]
  | dict m => simp [inputType]

/-- C5 (counterexample): a fingerprint whose artifact file is present
but unreadable is NOT evicted by `get_script` — the file and its index
entry survive and no eviction is counted — refuting the claim that read
corruption evicts the entry. -/
theorem get_script_corrupt_does_not_evict :
    ((CacheManager.get_script
        { files := [("f", CacheFile.corrupt)], metadata := [("f", {})] }
        0 "f").1 = none)
    ∧ ((CacheManager.get_script
        { files := [("f", CacheFile.corrupt)], metadata := [("f", {})] }
        0 "f").2.files.lookup "f" = some CacheFile.corrupt)
    ∧ (((CacheManager.get_script
        { files := [("f", CacheFile.corrupt)], metadata := [("f", {})] }
        0 "f").2.metadata.lookup "f").isSome = true)
    ∧ ((CacheManager.get_script
        { files := [("f", CacheFile.corrupt)], metadata := [("f", {})] }
        0 "f").2.stats.evictions = 0) := by
  refine ⟨rfl, rfl, rfl, rfl⟩

/-- C5 (amended): on read corruption `get_script` counts a miss and
returns none, leaving the artifact file and the index entry in place
and the eviction counter unchanged (eviction on read happens only for
expired entries). -/
theorem get_script_corrupt_returns_miss_without_eviction :
    ∀ (st : CacheState) (now : Int) (fp : String),
      st.files.lookup fp = some CacheFile.corrupt →
      ((CacheManager.get_script st now fp).1 = none
        ∧ (CacheManager.get_script st now fp).2.files = st.files
        ∧ (CacheManager.get_script st now fp).2.metadata = st.metadata
        ∧ (CacheManager.get_script st now fp).2.stats.evictions = st.stats.evictions
        ∧ (CacheManager.get_script st now fp).2.stats.misses = st.stats.misses + 1) := by
  intro st now fp h
  simp [CacheManager.get_script, h]

/-- Witness for the C5 theorem at a one-entry cache. -/
theorem get_script_corrupt_returns_miss_without_eviction_witness :
    (({ files := [("f", CacheFile.corrupt)] } : CacheState).files.lookup "f"
       = some CacheFile.corrupt)
    ∧ (CacheManager.get_script { files := [("f", CacheFile.corrupt)] } 0 "f").1 = none :=
  ⟨by decide,
   (get_script_corrupt_returns_miss_without_eviction
     { files := [("f", CacheFile.corrupt)] } 0 "f" (by decide)).1⟩

/-- C4 (counterexample): a cache hit on an artifact stored with
`access_count = 2` returns the artifact still carrying `access_count =
2` and rewrites the index entry's `access_count` to 2 as well — the
counter is never incremented, refuting the claim that a hit increments
`access_count` by one (`last_accessed_at` IS set to the current time). -/
theorem get_script_hit_does_not_increment_access_count :
    ((CacheManager.get_script
        { files := [("f", CacheFile.good
            { cached_at := 0, cache_ttl := some 100, last_accessed_at := 1,
              access_count := some 2 })],
          metadata := [("f", { access_count := 2, last_accessed_at := 1 })] }
        5 "f").1.map (fun a => a.access_count) = some (some 2))
    ∧ (((CacheManager.get_script
        { files := [("f", CacheFile.good
            { cached_at := 0, cache_ttl := some 100, last_accessed_at := 1,
              access_count := some 2 })],
          metadata := [("f", { access_count := 2, last_accessed_at := 1 })] }
        5 "f").2.metadata.lookup "f").map (fun m => m.access_count) = some 2)
    ∧ ((CacheManager.get_script
        { files := [("f", CacheFile.good
            { cached_at := 0, cache_ttl := some 100, last_accessed_at := 1,
              access_count := some 2 })],
          metadata := [("f", { access_count := 2, last_accessed_at := 1 })] }
        5 "f").1.map (fun a => a.last_accessed_at) = some 5) := by
  refine ⟨by decide, by decide, by decide⟩

/-- C4 (amended): for a present, readable, non-expired artifact,
`get_script` returns the artifact with `last_accessed_at` set to the
current time, counts a hit, and rewrites the index entry's
`last_accessed_at` to the current time and its `access_count` to the
artifact's stored `access_count` (default 0) — it does not increment
either counter. -/
theorem get_script_hit_updates_last_accessed_only :
    ∀ (st : CacheState) (now : Int) (fp : String) (d : ScriptData),
      st.files.lookup fp = some (CacheFile.good d) →
      CacheManager._is_expired now d = false →
      ((CacheManager.get_script st now fp).1
          = some { d with last_accessed_at := now }
        ∧ (CacheManager.get_script st now fp).2.stats.hits = st.stats.hits + 1
        ∧ ∀ me, st.metadata.lookup fp = some me →
            (CacheManager.get_script st now fp).2.metadata.lookup fp
              = some { me with last_accessed_at := now,
                               access_count := d.access_count.getD 0 }) := by
  intro st now fp d hfile hexp
  refine ⟨?_, ?_, ?_⟩
  · simp [CacheManager.get_script, hfile, hexp]
  · simp [CacheManager.get_script, CacheManager._update_script_metadata,
      hfile, hexp]
    split <;> rfl
  · intro me hme
    have hsome : (st.metadata.lookup fp).isSome := by
      rw [hme]; rfl
    simp only [CacheManager.get_script, CacheManager._update_script_metadata,
      hfile, hexp, Bool.false_eq_true, if_false, hsome, if_true]
    rw [lookup_map_keyed st.metadata fp
      (fun m => { m with last_accessed_at := now,
                         access_count := d.access_count.getD 0 }), hme]
    rfl

/-- C3: when the cache missed and the scan of the freshly generated
code did not pass, `run_script` logs exactly one `security_violation`
audit event per violation (in order), raises `SecurityError` carrying
the violation list, and never invokes `store_script`. -/
theorem run_script_scan_failure_behavior :
    ∀ (req : RunRequest) (cached : Option ScriptData)
      (processedPrompt scriptCode : String)
      (scanResult : SecurityScanResult) (script_id : String) (createdAt : Int)
      (lastProviderUsed : Option String) (execResult : ExecutionResult),
      cached = none → scanResult.passed = false →
      ((CapibaraEngine.run_script req cached processedPrompt scriptCode
          scanResult script_id createdAt lastProviderUsed execResult).trace.auditEvents
          = scanResult.violations.map CapibaraEngine.securityViolationEvent
        ∧ (CapibaraEngine.run_script req cached processedPrompt scriptCode
            scanResult script_id createdAt lastProviderUsed execResult).result
          = Except.error (EngineError.securityError
              "Script failed security scan" scanResult.violations)
        ∧ (CapibaraEngine.run_script req cached processedPrompt scriptCode
            scanResult script_id createdAt lastProviderUsed execResult).trace.storeCalls
          = []) := by
  intro req cached pp code sr sid cat prov er hc hp
  subst hc
  refine ⟨?_, ?_, ?_⟩ <;>
    simp [CapibaraEngine.run_script, CapibaraEngine._log_security_violations, hp]

/-- Witness for the C3 theorem at a concrete failing scan. -/
theorem run_script_scan_failure_behavior_witness :
    ((none : Option ScriptData) = none)
    ∧ ({ scan_id := "s", script_id := "",
         violations := [{ violation_id := "import_os",
                          rule_name := "dangerous_import", severity := "error",
                          message := "Dangerous import detected: os",
                          pattern_matched := "os" }],
         passed := false, scan_duration_ms := 0,
         rules_applied := [] } : SecurityScanResult).passed = false
    ∧ (CapibaraEngine.run_script { prompt := "p" } none "pp" "c"
        { scan_id := "s", script_id := "",
          violations := [{ violation_id := "import_os",
                           rule_name := "dangerous_import", severity := "error",
                           message := "Dangerous import detected: os",
                           pattern_matched := "os" }],
          passed := false, scan_duration_ms := 0, rules_applied := [] }
        "sid" 0 none
        { success := true, exit_code := 0,
          execution_time_ms := 0 }).trace.storeCalls = [] :=
  ⟨rfl, rfl,
   (run_script_scan_failure_behavior { prompt := "p" } none "pp" "c"
     { scan_id := "s", script_id := "",
       violations := [{ violation_id := "import_os",
                        rule_name := "dangerous_import", severity := "error",
                        message := "Dangerous import detected: os",
                        pattern_matched := "os" }],
       passed := false, scan_duration_ms := 0, rules_applied := [] }
     "sid" 0 none
     { success := true, exit_code := 0, execution_time_ms := 0 }
     rfl rfl).2.2⟩

/-- Inserting an item whose normalization is empty does not change the
normalized items. -/
theorem normalizeItems_insertLeB_of_nil (k : String) (v : CVal)
    (h : normalizeEntry k v = []) :
    ∀ l, normalizeItems (insertLeB (fun a b => strLeB a.1 b.1) (k, v) l)
      = normalizeItems l := by
  intro l
  induction l with
  | nil => simp [insertLeB, normalizeItems, h]
  | cons b l ih =>
    obtain ⟨bk, bv⟩ := b
    simp only [insertLeB]
    by_cases hle : strLeB k bk = true
    · simp only [hle, if_true]
      simp [normalizeItems, h]
    · simp only [hle, if_false]
      simp [normalizeItems, ih]

/-- C10: a context binding `inputs` to the empty list normalizes
exactly like the same context without the `inputs` key, so
`generate_fingerprint` cannot tell the two apart: a request with
`inputs: []` is indistinguishable from one without `inputs` for caching
purposes. -/
theorem fingerprint_empty_inputs_dropped :
    ∀ (prompt language : String) (pol : Option String)
      (base : List (String × CVal)),
      "inputs" ∉ base.map Prod.fst →
      generate_fingerprint prompt language (("inputs", CVal.list []) :: base) pol
        = generate_fingerprint prompt language base pol := by
  intro p l pol base hni
  have hentry : normalizeEntry "inputs" (CVal.list []) = [] := by
    simp [normalizeEntry]
  have hctx : normalizeContext (("inputs", CVal.list []) :: base)
      = normalizeContext base := by
    cases base with
    | nil =>
      simp [normalizeContext, sortByKey, insSortB, insertLeB, normalizeItems,
        hentry]
    | cons b t =>
      rw [normalizeContext, normalizeContext]
      simp only [List.isEmpty_cons, Bool.false_eq_true, if_false]
      exact normalizeItems_insertLeB_of_nil "inputs" (CVal.list []) hentry
        (sortByKey (b :: t))
  simp [generate_fingerprint, fingerprintData, hctx]

/-- Witness for the C10 theorem at a one-key base context. -/
theorem fingerprint_empty_inputs_dropped_witness :
    ("inputs" ∉ ([("data", CVal.prim (PyVal.pstr "desc"))].map Prod.fst))
    ∧ generate_fingerprint "p" "python"
        (("inputs", CVal.list []) :: [("data", CVal.prim (PyVal.pstr "desc"))]) none
      = generate_fingerprint "p" "python"
        [("data", CVal.prim (PyVal.pstr "desc"))] none :=
  ⟨by decide,
   fingerprint_empty_inputs_dropped "p" "python" none
     [("data", CVal.prim (PyVal.pstr "desc"))] (by decide)⟩

/-- Python `sorted(set(...))` is invariant under permutation. -/
theorem sortedDedupStr_perm_congr {l₁ l₂ : List String} (h : l₁.Perm l₂) :
    sortedDedupStr l₁ = sortedDedupStr l₂ :=
  insSortB_eq_of_perm strLeB strLeB_total strLeB_antisymm strLeB_trans h.dedup

/-- The inputs summary depends only on the arity and the multiset of
derived types. -/
theorem inputsSummary_congr (xs₁ xs₂ : List CVal)
    (hlen : xs₁.length = xs₂.length)
    (hperm : (xs₁.map inputType).Perm (xs₂.map inputType)) :
    inputsSummary xs₁ = inputsSummary xs₂ := by
  unfold inputsSummary
  rw [hlen, sortedDedupStr_perm_congr hperm]

/-- The normalized `inputs` entry depends only on the arity and the
multiset of derived types. -/
theorem normalizeEntry_inputs_congr (xs₁ xs₂ : List CVal)
    (hlen : xs₁.length = xs₂.length)
    (hperm : (xs₁.map inputType).Perm (xs₂.map inputType)) :
    normalizeEntry "inputs" (CVal.list xs₁)
      = normalizeEntry "inputs" (CVal.list xs₂) := by
  by_cases hpos : xs₂.length > 0
  · simp [normalizeEntry, hlen, hpos, inputsSummary_congr xs₁ xs₂ hlen hperm]
  · simp [normalizeEntry, hlen, hpos]

/-- Inserting items with the same key and the same normalization at the
same sort position yields the same normalized items. -/
theorem normalizeItems_insertLeB_congr (k : String) (v₁ v₂ : CVal)
    (h : normalizeEntry k v₁ = normalizeEntry k v₂) :
    ∀ l, normalizeItems (insertLeB (fun a b => strLeB a.1 b.1) (k, v₁) l)
      = normalizeItems (insertLeB (fun a b => strLeB a.1 b.1) (k, v₂) l) := by
  intro l
  induction l with
  | nil => simp [insertLeB, normalizeItems, h]
  | cons b l ih =>
    obtain ⟨bk, bv⟩ := b
    simp only [insertLeB]
    by_cases hle : strLeB k bk = true
    · simp only [hle, if_true]
      simp [normalizeItems, h]
    · simp only [hle, if_false]
      simp [normalizeItems, ih]

/-- C6: two fingerprint inputs identical except for the values in
`context.inputs`, whose inputs lists have the same length and the same
multiset of derived types, produce the same digest. -/
theorem fingerprint_input_value_invariance :
    ∀ (prompt language : String) (pol : Option String)
      (base : List (String × CVal)) (xs₁ xs₂ : List CVal),
      xs₁.length = xs₂.length →
      (xs₁.map inputType).Perm (xs₂.map inputType) →
      generate_fingerprint prompt language
        (("inputs", CVal.list xs₁) :: base) pol
      = generate_fingerprint prompt language
          (("inputs", CVal.list xs₂) :: base) pol := by
  intro p l pol base xs₁ xs₂ hlen hperm
  have hentry := normalizeEntry_inputs_congr xs₁ xs₂ hlen hperm
  have hctx : normalizeContext (("inputs", CVal.list xs₁) :: base)
      = normalizeContext (("inputs", CVal.list xs₂) :: base) := by
    rw [normalizeContext, normalizeContext]
    simp only [List.isEmpty_cons, Bool.false_eq_true, if_false]
    exact normalizeItems_insertLeB_congr "inputs" (CVal.list xs₁)
      (CVal.list xs₂) hentry (sortByKey base)
  simp [generate_fingerprint, fingerprintData, hctx]

/-- Witness for the C6 theorem: `inputs: [1, 2]` and `inputs: [99, 100]`
fingerprint identically. -/
theorem fingerprint_input_value_invariance_witness :
    ([CVal.prim (PyVal.pint 1), CVal.prim (PyVal.pint 2)].length
      = [CVal.prim (PyVal.pint 99), CVal.prim (PyVal.pint 100)].length)
    ∧ ([CVal.prim (PyVal.pint 1), CVal.prim (PyVal.pint 2)].map inputType).Perm
        ([CVal.prim (PyVal.pint 99), CVal.prim (PyVal.pint 100)].map inputType)
    ∧ generate_fingerprint "add two numbers" "python"
        [("inputs", CVal.list [CVal.prim (PyVal.pint 1), CVal.prim (PyVal.pint 2)])]
        none
      = generate_fingerprint "add two numbers" "python"
        [("inputs", CVal.list [CVal.prim (PyVal.pint 99), CVal.prim (PyVal.pint 100)])]
        none :=
  ⟨rfl, List.Perm.refl _,
   fingerprint_input_value_invariance "add two numbers" "python" none []
     [CVal.prim (PyVal.pint 1), CVal.prim (PyVal.pint 2)]
     [CVal.prim (PyVal.pint 99), CVal.prim (PyVal.pint 100)]
     rfl (List.Perm.refl _)⟩

/-- One walk step of `_scan_imports` contributes a `dangerous_import`
violation on module `m` exactly when the node is an import of a
dangerous module `m` that a present policy does not allow. -/
theorem importNodeViolations_mem_iff (policy : Option SecurityPolicy)
    (node : PyNode) (m : String) :
    (∃ v ∈ ASTScanner.importNodeViolations policy node,
        v.rule_name = "dangerous_import" ∧ v.severity = "error"
          ∧ v.pattern_matched = m)
      ↔ (node.isImportLike = true ∧ ASTScanner._get_module_name node = m
          ∧ m ∈ ASTScanner.dangerous_imports
          ∧ ∀ p, policy = some p →
              ASTScanner._is_import_allowed m p = false) := by
  by_cases h1 : node.isImportLike = true
  case neg =>
    have hred : ASTScanner.importNodeViolations policy node = [] := by
      simp [ASTScanner.importNodeViolations, h1]
    rw [hred]
    simp [h1]
  case pos =>
    by_cases h2 : ASTScanner._get_module_name node ∈ ASTScanner.dangerous_imports
    case neg =>
      have hred : ASTScanner.importNodeViolations policy node = [] := by
        simp [ASTScanner.importNodeViolations, h1, h2]
      rw [hred]
      simp only [List.not_mem_nil, false_and, exists_false, false_iff, not_and]
      intro _ hmod hdang _
      exact absurd (hmod ▸ hdang) h2
    case pos =>
      have hokcase :
          (∃ v ∈ [ASTScanner.mkImportViolation node],
              v.rule_name = "dangerous_import" ∧ v.severity = "error"
                ∧ v.pattern_matched = m)
            ↔ ASTScanner._get_module_name node = m := by
        simp only [List.mem_singleton]
        constructor
        · rintro ⟨v, rfl, _, _, hpat⟩
          exact hpat
        · intro hmod
          exact ⟨_, rfl, rfl, rfl, hmod⟩
      cases policy with
      | none =>
        have hred : ASTScanner.importNodeViolations none node
            = [ASTScanner.mkImportViolation node] := by
          simp [ASTScanner.importNodeViolations, h1, h2]
        rw [hred, hokcase]
        constructor
        · intro hmod
          exact ⟨h1, hmod, hmod ▸ h2, fun p hp => by cases hp⟩
        · rintro ⟨_, hmod, _, _⟩
          exact hmod
      | some pol =>
        by_cases h3 : ASTScanner._is_import_allowed
            (ASTScanner._get_module_name node) pol = true
        · have hred : ASTScanner.importNodeViolations (some pol) node = [] := by
            simp [ASTScanner.importNodeViolations, h1, h2, h3]
          rw [hred]
          simp only [List.not_mem_nil, false_and, exists_false, false_iff,
            not_and]
          intro _ hmod _ hall
          have hfalse := hall pol rfl
          rw [← hmod] at hfalse
          rw [h3] at hfalse
          cases hfalse
        · have h3f : ASTScanner._is_import_allowed
              (ASTScanner._get_module_name node) pol = false := by
            simpa using h3
          have hred : ASTScanner.importNodeViolations (some pol) node
              = [ASTScanner.mkImportViolation node] := by
            simp [ASTScanner.importNodeViolations, h1, h2, h3f]
          rw [hred, hokcase]
          constructor
          · intro hmod
            refine ⟨h1, hmod, hmod ▸ h2, fun p hp => ?_⟩
            cases hp
            rw [← hmod]
            exact h3f
          · rintro ⟨_, hmod, _, _⟩
            exact hmod

/-- C1 (amended): `_scan_imports` emits a severity-`error`
`dangerous_import` violation on module `m` iff some walked node imports
`m`, `m` is in the built-in dangerous set, and either no policy was
given or `_is_import_allowed` rejects `m` — with a policy present this
requires a `blocked_imports` match, not merely the absence of an
`allowed_imports` match; in particular `import os` under the built-in
strict policy (which block-lists `os`) is flagged. -/
theorem scan_imports_dangerous_import_characterization :
    (∀ (nodes : List PyNode) (policy : Option SecurityPolicy) (m : String),
      (∃ v ∈ ASTScanner._scan_imports nodes policy,
          v.rule_name = "dangerous_import" ∧ v.severity = "error"
            ∧ v.pattern_matched = m)
        ↔ (m ∈ ASTScanner.dangerous_imports
            ∧ (∀ p, policy = some p →
                ASTScanner._is_import_allowed m p = false)
            ∧ ∃ node ∈ nodes, node.isImportLike = true
                ∧ ASTScanner._get_module_name node = m))
    ∧ (∃ v ∈ (ASTScanner.scan "import os"
          (ParseResult.ok [PyNode.importNode ["os"] (some 1) "import os"])
          "python" (some PolicyManager.strict_policy)).violations,
        v.rule_name = "dangerous_import" ∧ v.severity = "error"
          ∧ v.pattern_matched = "os") := by
  constructor
  · intro nodes policy m
    constructor
    · rintro ⟨v, hv, hP⟩
      have hv2 : v ∈ nodes.flatMap (ASTScanner.importNodeViolations policy) := hv
      obtain ⟨n, hn, hvn⟩ := List.mem_flatMap.mp hv2
      obtain ⟨him, hmod, hdang, hpol⟩ :=
        (importNodeViolations_mem_iff policy n m).mp ⟨v, hvn, hP⟩
      exact ⟨hdang, hpol, n, hn, him, hmod⟩
    · rintro ⟨hdang, hpol, n, hn, him, hmod⟩
      obtain ⟨v, hvn, hP⟩ :=
        (importNodeViolations_mem_iff policy n m).mpr ⟨him, hmod, hdang, hpol⟩
      exact ⟨v, List.mem_flatMap.mpr ⟨n, hn, hvn⟩, hP⟩
  · decide

/-- C1 (counterexample): `import os` scanned under the built-in
permissive policy — where `os` is dangerous and nothing whitelists it
(`allowed_imports` is empty) — produces NO `dangerous_import`
violation, because `_is_import_allowed` defaults to allowed when no
`blocked_imports` pattern matches either. -/
theorem scan_import_os_permissive_no_dangerous_import :
    ("os" ∈ ASTScanner.dangerous_imports)
    ∧ PolicyManager.permissive_policy.allowed_imports = []
    ∧ ((ASTScanner.scan "import os"
        (ParseResult.ok [PyNode.importNode ["os"] (some 1) "import os"])
        "python" (some PolicyManager.permissive_policy)).violations.filter
          (fun v => v.rule_name == "dangerous_import")) = [] := by
  refine ⟨by decide, rfl, by decide⟩

/-- Witness for the C4 theorem at a one-entry cache. -/
theorem get_script_hit_updates_last_accessed_only_witness :
    (({ files := [("f", CacheFile.good { cached_at := 0, cache_ttl := some 100 })],
        metadata := [("f", {})] } : CacheState).files.lookup "f"
      = some (CacheFile.good { cached_at := 0, cache_ttl := some 100 }))
    ∧ CacheManager._is_expired 5 { cached_at := 0, cache_ttl := some 100 } = false
    ∧ (CacheManager.get_script
        { files := [("f", CacheFile.good { cached_at := 0, cache_ttl := some 100 })],
          metadata := [("f", {})] } 5 "f").1
      = some { ({ cached_at := 0, cache_ttl := some 100 } : ScriptData) with
               last_accessed_at := 5 } :=
  ⟨by decide, by decide,
   (get_script_hit_updates_last_accessed_only
     { files := [("f", CacheFile.good { cached_at := 0, cache_ttl := some 100 })],
       metadata := [("f", {})] } 5 "f"
     { cached_at := 0, cache_ttl := some 100 } (by decide) (by decide)).1⟩

end Capibara
